import Mathlib

/-!
Shallow embedding of `secret_store/src/key_server_cluster/decryption_session.rs`
(parity secret store, distributed threshold-decryption session).

The decryption-session orchestrator itself (`SessionImpl`) is translated from the
source file.  Its collaborators that live in other modules of the repository
(`jobs/consensus_session.rs`, `jobs/decryption_job.rs`,
`generation_session::check_cluster_nodes` / `check_threshold`) are modelled from the
specification, and each such definition is marked `Modelled from the spec:` in its
doc comment.  Elliptic-curve arithmetic is an external collaborator (out of scope in
the spec); concrete stand-in functions replace it — no claim below depends on the
actual group math.

Effects (network sends, broadcasts, assignment of the session result, condition
variable notification) are made explicit as an ordered list of `SessionEvent`s
emitted by each entry point, so that statements about the order of effects
("broadcast before result is set") are statable.  A `debug : Bool` parameter models
whether `debug_assert!` is compiled in; an `Option` return value models panics
(`none` = the process aborts, no value is returned).
-/

namespace DecryptionSessionModel

/-- Node identifiers (`NodeId`, an elliptic-curve public key in the source) are
modelled as naturals; only equality and ordering of distinct ids matter here. -/
abbrev NodeId := Nat

/-- Document / encryption session identifier (`SessionId`). -/
abbrev SessionId := Nat

/-- Opaque scalar (`ethkey::Secret`): access keys, secret shares, request ids. -/
abbrev Secret := Nat

/-- Opaque group element (`ethkey::Public`). -/
abbrev Public := Nat

/-- Error kinds of `key_server_cluster::Error` used by the decryption session.
The spec calls this the closed error set (§7). -/
inductive Error
  | NotStartedSessionId
  | InvalidNodesConfiguration
  | InvalidThreshold
  | InvalidStateForRequest
  | InvalidMessage
  | InvalidNodeForRequest
  | ConsensusUnreachable
  | AccessDenied
  | NodeDisconnected
  deriving DecidableEq, Repr

/-- Decryption result (`EncryptedDocumentKeyShadow`). -/
structure EncryptedDocumentKeyShadow where
  decrypted_secret : Public
  common_point : Option Public
  decrypt_shadows : Option (List Nat)
  deriving DecidableEq, Repr

/-- Session metadata (`SessionMeta`): immutable per session. -/
structure SessionMeta where
  id : SessionId
  self_node_id : NodeId
  master_node_id : NodeId
  threshold : Nat
  deriving DecidableEq, Repr

/-- Key share (`DocumentKeyShare`).  The `id_numbers` BTreeMap is modelled as an
association list whose keys are the participant node ids (distinct, as in a map). -/
structure DocumentKeyShare where
  author : Public
  threshold : Nat
  id_numbers : List (NodeId × Secret)
  secret_share : Secret
  common_point : Option Public
  encrypted_point : Option Public
  deriving DecidableEq, Repr

/-- The session result type stored in `SessionData::result`. -/
abbrev DecResult := Except Error EncryptedDocumentKeyShadow

instance {ε α : Type} [DecidableEq ε] [DecidableEq α] : DecidableEq (Except ε α) := fun a b =>
  match a, b with
  | .ok x, .ok y => if h : x = y then .isTrue (by rw [h]) else .isFalse (by simp [h])
  | .error x, .error y => if h : x = y then .isTrue (by rw [h]) else .isFalse (by simp [h])
  | .ok _, .error _ => .isFalse (by simp)
  | .error _, .ok _ => .isFalse (by simp)

/-- Wire messages of the decryption session (`DecryptionMessage` variants); every
variant carries `session` and `sub_session` (§6.1). -/
inductive DecryptionMessageModel
  | consensusInitialize (session : SessionId) (sub_session : Secret) (requestor_signature : Nat)
  | consensusConfirm (session : SessionId) (sub_session : Secret) (is_confirmed : Bool)
  | requestPartialDecryption (session : SessionId) (sub_session : Secret) (request_id : Nat)
      (is_shadow_decryption : Bool) (nodes : List NodeId)
  | partialDecryption (session : SessionId) (sub_session : Secret) (request_id : Nat)
      (shadow_point : Public) (decrypt_shadow : Option Nat)
  | sessionError (session : SessionId) (sub_session : Secret) (error : String)
  | sessionCompleted (session : SessionId) (sub_session : Secret)
  deriving DecidableEq

/-- Observable effects of one entry point, in execution order.  `send`/`broadcast`
are transport calls (`Cluster::send` / `Cluster::broadcast`); `setResult` is the
assignment to `SessionData::result`; `notifyAll` is `Condvar::notify_all`. -/
inductive SessionEvent
  | send (dest : NodeId) (message : DecryptionMessageModel)
  | broadcast (message : DecryptionMessageModel)
  | setResult (value : DecResult)
  | notifyAll
  deriving DecidableEq

/-- Decryption session id (`DecryptionSessionId`): the registry routing key. -/
structure DecryptionSessionId where
  id : SessionId
  access_key : Secret
  deriving DecidableEq, Repr

/-- `Ord for DecryptionSessionId`: compare encryption-session ids; on equality,
compare access keys (source lines 457-464). -/
def DecryptionSessionId.cmp (a b : DecryptionSessionId) : Ordering :=
  match compare a.id b.id with
  | .eq => compare a.access_key b.access_key
  | r => r

/-- `PartialOrd for DecryptionSessionId`: always `Some(self.cmp(other))`. -/
def DecryptionSessionId.partial_cmp (a b : DecryptionSessionId) : Option Ordering :=
  some (a.cmp b)

/-- Modelled from the spec: the lexicographic order on the pair
(session_id, access_key) — "ordered lexicographically by session_id then
access_key" (§3).  Stated with `Ordering.then`, the standard lexicographic
combinator, to be compared with the source-derived `cmp`. -/
def specLexicographicOrder (a b : DecryptionSessionId) : Ordering :=
  (compare a.id b.id).then (compare a.access_key b.access_key)

/-- Consensus sub-session states (`ConsensusSessionState`, §4.1). -/
inductive ConsensusSessionState
  | WaitingForInitialization
  | EstablishingConsensus
  | ConsensusEstablished
  | WaitingForPartialResults
  | Finished
  | Failed
  deriving DecidableEq, Repr

/-- Phase-B work item sent by the master (`PartialDecryptionRequest`, §4.3). -/
structure PartialDecryptionRequest where
  id : Secret
  is_shadow_decryption : Bool
  other_nodes_ids : List NodeId
  deriving DecidableEq, Repr

/-- Phase-B partial result (`PartialDecryptionResponse`, §4.3). -/
structure PartialDecryptionResponse where
  request_id : Secret
  shadow_point : Public
  decrypt_shadow : Option Nat
  deriving DecidableEq, Repr

/-- Per-node decryption job (`DecryptionJob`): the data a node needs to compute its
partial decryption and, on the master, to combine the collected shares. -/
structure DecryptionJob where
  self_node_id : NodeId
  access_key : Secret
  requester : Public
  key_share : DocumentKeyShare
  is_shadow_decryption : Option Bool
  deriving DecidableEq, Repr

/-- Modelled from the spec: stand-in for the external elliptic-curve step computing
a node's partial decryption `shadow_point = lambda_i * s_i * common_point` (§4.3).
EC arithmetic is an out-of-scope collaborator; no claim depends on the value. -/
def partialDecryptionShadowPoint (secret_share common_point : Nat) : Public :=
  secret_share * common_point + 1

/-- Modelled from the spec: stand-in for ECIES-encrypting a per-node shadow
coefficient to the requester's public key (§4.3); out-of-scope collaborator. -/
def eciesEncryptShadow (requester access_key : Nat) : Nat :=
  requester + access_key

/-- Modelled from the spec: stand-in for the external group operation combining the
joint shadow point with `encrypted_point` to recover the document key (§4.3). -/
def decryptWithJointShadow (joint encrypted_point : Nat) : Public :=
  encrypted_point + 2 * joint

/-- Modelled from the spec: `DecryptionJob` partial-response computation on one
node (§4.3 "Partial response"): the shadow point, plus (in shadow mode) the
ECIES-encrypted shadow coefficient. -/
def DecryptionJob.processPartialRequest (job : DecryptionJob)
    (request : PartialDecryptionRequest) : PartialDecryptionResponse :=
  { request_id := request.id
    shadow_point := partialDecryptionShadowPoint job.key_share.secret_share
      (job.key_share.common_point.getD 0)
    decrypt_shadow :=
      if request.is_shadow_decryption then
        some (eciesEncryptShadow job.requester job.access_key)
      else none }

/-- Modelled from the spec: the master combine step (§4.3 "Master combine").
Plain mode: combine the summed shadow points with `encrypted_point`; no
`common_point`, no `decrypt_shadows`.  Shadow mode: emit the combined point, the
key share's `common_point` and the collected `decrypt_shadow` payloads. -/
def computeJobResult (job : DecryptionJob)
    (responses : List (NodeId × PartialDecryptionResponse)) : EncryptedDocumentKeyShadow :=
  let joint := (responses.map (fun p => p.2.shadow_point)).foldl (· + ·) 0
  if job.is_shadow_decryption.getD false then
    { decrypted_secret := joint
      common_point := job.key_share.common_point
      decrypt_shadows := some (responses.filterMap (fun p => p.2.decrypt_shadow)) }
  else
    { decrypted_secret := decryptWithJointShadow joint (job.key_share.encrypted_point.getD 0)
      common_point := none
      decrypt_shadows := none }

/-- Modelled from the spec: the consensus sub-session
(`jobs/consensus_session.rs`, not under `src/`), per §4.1.  `requested`,
`confirmed`, `rejected` are the phase-A node sets; `jobRequests` is the compute
quorum of the current round, `jobRequestId` its fresh request id, `jobResponses`
the collected phase-B responses, `computationJob` the master's combiner data.
`transportSession` / `transportSubSession` are the ids the wired
`DecryptionConsensusTransport` stamps on outgoing messages. -/
structure ConsensusSession where
  state : ConsensusSessionState
  threshold : Nat
  selfNode : NodeId
  masterNode : NodeId
  transportSession : SessionId
  transportSubSession : Secret
  acl : List NodeId
  requesterPublic : Option Public
  requested : List NodeId
  confirmed : List NodeId
  rejected : List NodeId
  jobRequestId : Secret
  jobRequests : List NodeId
  jobResponses : List (NodeId × PartialDecryptionResponse)
  computationJob : Option DecryptionJob
  consensusResult : Option EncryptedDocumentKeyShadow
  deriving DecidableEq

/-- Modelled from the spec: public key recovered from the requester signature
(§3 "Requester"); external crypto, modelled as the signature scalar itself. -/
def recoverRequester (signature : Nat) : Public := signature

/-- Modelled from the spec: `ConsensusSession::new_on_master` — fresh sub-session
in `WaitingForInitialization`, holding the recovered requester identity. -/
def ConsensusSession.new_on_master (meta : SessionMeta) (acl : List NodeId)
    (transportSession : SessionId) (transportSubSession : Secret)
    (requester_signature : Nat) : ConsensusSession :=
  { state := .WaitingForInitialization
    threshold := meta.threshold
    selfNode := meta.self_node_id
    masterNode := meta.master_node_id
    transportSession := transportSession
    transportSubSession := transportSubSession
    acl := acl
    requesterPublic := some (recoverRequester requester_signature)
    requested := []
    confirmed := []
    rejected := []
    jobRequestId := 0
    jobRequests := []
    jobResponses := []
    computationJob := none
    consensusResult := none }

/-- Modelled from the spec: `ConsensusSession::new_on_slave` — as on the master but
with no requester yet (it arrives with `InitializeConsensusSession`). -/
def ConsensusSession.new_on_slave (meta : SessionMeta) (acl : List NodeId)
    (transportSession : SessionId) (transportSubSession : Secret) : ConsensusSession :=
  { state := .WaitingForInitialization
    threshold := meta.threshold
    selfNode := meta.self_node_id
    masterNode := meta.master_node_id
    transportSession := transportSession
    transportSubSession := transportSubSession
    acl := acl
    requesterPublic := none
    requested := []
    confirmed := []
    rejected := []
    jobRequestId := 0
    jobRequests := []
    jobResponses := []
    computationJob := none
    consensusResult := none }

/-- Modelled from the spec: `ConsensusSession::requester()` — the requester
identity, or `InvalidStateForRequest` before it is known. -/
def ConsensusSession.requester (cs : ConsensusSession) : Except Error Public :=
  match cs.requesterPublic with
  | some r => .ok r
  | none => .error .InvalidStateForRequest

/-- Insertion of a node id into an ascending list (for the deterministic quorum
tie-break of §4.3). -/
def insertAscending (n : NodeId) : List NodeId → List NodeId
  | [] => [n]
  | m :: rest => if n ≤ m then n :: m :: rest else m :: insertAscending n rest

/-- Ascending sort of node ids. -/
def sortAscending (l : List NodeId) : List NodeId :=
  l.foldr insertAscending []

/-- Modelled from the spec: deterministic quorum selection (§4.3 "Quorum selection
tie-break"): self first if confirmed, then remaining confirmed nodes by ascending
`NodeId`, picking exactly `threshold + 1`. -/
def ConsensusSession.selectConsensusGroup (cs : ConsensusSession) : List NodeId :=
  let others := sortAscending (cs.confirmed.filter (· ≠ cs.selfNode))
  let ordered := if cs.selfNode ∈ cs.confirmed then cs.selfNode :: others else others
  ordered.take (cs.threshold + 1)

/-- Modelled from the spec: master `initialize(candidates)` (§4.1), named
`initializeConsensus` because `initialize` is reserved in Lean: only from
`WaitingForInitialization` (double call → `InvalidStateForRequest`); sends the
phase-A request to all candidates except self; evaluates the ACL locally for self
and records self as confirmed or rejected; moves to `EstablishingConsensus`, or
directly to `ConsensusEstablished` in the degenerate case. -/
def ConsensusSession.initializeConsensus (cs : ConsensusSession) (nodes : List NodeId) :
    ConsensusSession × List SessionEvent × Except Error Unit :=
  if cs.state ≠ .WaitingForInitialization then
    (cs, [], .error .InvalidStateForRequest)
  else
    let others := nodes.filter (· ≠ cs.selfNode)
    let selfAllowed := cs.selfNode ∈ cs.acl
    let requested := others
    let confirmed := if selfAllowed then [cs.selfNode] else []
    let rejected := if selfAllowed then [] else [cs.selfNode]
    let sends := others.map (fun n =>
      SessionEvent.send n (.consensusInitialize cs.transportSession cs.transportSubSession
        (cs.requesterPublic.getD 0)))
    let established := cs.threshold + 1 ≤ confirmed.length
    if requested.length + confirmed.length < cs.threshold + 1 then
      ({ cs with state := .Failed, requested := requested, confirmed := confirmed,
                 rejected := rejected }, sends, .error .ConsensusUnreachable)
    else
      ({ cs with
          state := if established then .ConsensusEstablished else .EstablishingConsensus
          requested := requested
          confirmed := confirmed
          rejected := rejected }, sends, .ok ())

/-- Consensus-message payloads (`ConsensusMessage`). -/
inductive ConsensusMessage
  | initializeConsensusSession (requestor_signature : Nat)
  | confirmConsensusInitialization (is_confirmed : Bool)
  deriving DecidableEq

/-- Modelled from the spec: consensus-phase transitions (§4.1).  A slave receiving
`InitializeConsensusSession` evaluates its ACL, replies
`ConfirmConsensusInitialization` and moves to `ConsensusEstablished`; the master
receiving `Confirm…` moves the sender to `confirmed` or `rejected`, establishes
consensus at `t+1` confirmations, and fails with `ConsensusUnreachable` when the
potentially-confirming set drops below `t+1`.  Unexpected sender or state →
`InvalidMessage`. -/
def ConsensusSession.on_consensus_message (cs : ConsensusSession) (sender : NodeId)
    (message : ConsensusMessage) : ConsensusSession × List SessionEvent × Except Error Unit :=
  match message with
  | .initializeConsensusSession sig =>
    if sender ≠ cs.masterNode ∨ cs.state ≠ .WaitingForInitialization then
      (cs, [], .error .InvalidMessage)
    else
      let allowed := cs.selfNode ∈ cs.acl
      ({ cs with state := .ConsensusEstablished, requesterPublic := some (recoverRequester sig) },
       [.send cs.masterNode
          (.consensusConfirm cs.transportSession cs.transportSubSession allowed)],
       .ok ())
  | .confirmConsensusInitialization is_confirmed =>
    if cs.selfNode ≠ cs.masterNode ∨ cs.state ≠ .EstablishingConsensus
        ∨ sender ∉ cs.requested then
      (cs, [], .error .InvalidMessage)
    else
      let requested := cs.requested.filter (· ≠ sender)
      let confirmed := if is_confirmed then cs.confirmed ++ [sender] else cs.confirmed
      let rejected := if is_confirmed then cs.rejected else cs.rejected ++ [sender]
      if cs.threshold + 1 ≤ confirmed.length then
        ({ cs with state := .ConsensusEstablished, requested := requested,
                   confirmed := confirmed, rejected := rejected }, [], .ok ())
      else if requested.length + confirmed.length < cs.threshold + 1 then
        ({ cs with state := .Failed, requested := requested,
                   confirmed := confirmed, rejected := rejected }, [],
         .error .ConsensusUnreachable)
      else
        ({ cs with requested := requested, confirmed := confirmed, rejected := rejected },
         [], .ok ())

/-- Modelled from the spec: master `disseminate_jobs` (§4.1): from
`ConsensusEstablished`, or `EstablishingConsensus` after a restart; selects the
deterministic quorum of exactly `t+1` confirmed nodes, sends each remote member
the phase-B request with a fresh `request_id`, computes the master's own partial
response locally when it is in the quorum, and moves to
`WaitingForPartialResults` (directly to `Finished` in the degenerate one-node
case).  Fails with `ConsensusUnreachable` when fewer than `t+1` confirmed
survivors remain. -/
def ConsensusSession.disseminate_jobs (cs : ConsensusSession) (job : DecryptionJob)
    (transportSession : SessionId) (transportSubSession : Secret) :
    ConsensusSession × List SessionEvent × Except Error Unit :=
  if cs.state ≠ .ConsensusEstablished ∧ cs.state ≠ .EstablishingConsensus then
    (cs, [], .error .InvalidStateForRequest)
  else if cs.confirmed.length < cs.threshold + 1 then
    ({ cs with state := .Failed }, [], .error .ConsensusUnreachable)
  else
    let group := cs.selectConsensusGroup
    let rid := cs.jobRequestId + 1
    let request : PartialDecryptionRequest :=
      { id := rid
        is_shadow_decryption := job.is_shadow_decryption.getD false
        other_nodes_ids := group }
    let sends := (group.filter (· ≠ cs.selfNode)).map (fun n =>
      SessionEvent.send n (.requestPartialDecryption transportSession transportSubSession
        rid request.is_shadow_decryption group))
    let selfResponses :=
      if cs.selfNode ∈ group then [(cs.selfNode, job.processPartialRequest request)] else []
    let cs1 := { cs with
      state := .WaitingForPartialResults
      jobRequestId := rid
      jobRequests := group
      jobResponses := selfResponses
      computationJob := some job }
    if cs.threshold + 1 ≤ selfResponses.length then
      ({ cs1 with state := .Finished,
                  consensusResult := some (computeJobResult job selfResponses) },
       sends, .ok ())
    else
      (cs1, sends, .ok ())

/-- Modelled from the spec: slave `on_job_request` (§4.1, §4.3 "Validation on
slave"): sender must be the master, the quorum must have size exactly `t+1` and
contain self (else `InvalidMessage`), the sub-session must be in
`ConsensusEstablished` (else `InvalidStateForRequest`); then the node computes its
partial response, sends it back, and remains in `ConsensusEstablished`. -/
def ConsensusSession.on_job_request (cs : ConsensusSession) (sender : NodeId)
    (request : PartialDecryptionRequest) (job : DecryptionJob)
    (transportSession : SessionId) (transportSubSession : Secret) :
    ConsensusSession × List SessionEvent × Except Error Unit :=
  if sender ≠ cs.masterNode then
    (cs, [], .error .InvalidMessage)
  else if request.other_nodes_ids.length ≠ cs.threshold + 1
      ∨ cs.selfNode ∉ request.other_nodes_ids then
    (cs, [], .error .InvalidMessage)
  else if cs.state ≠ .ConsensusEstablished then
    (cs, [], .error .InvalidStateForRequest)
  else
    let response := job.processPartialRequest request
    (cs,
     [.send cs.masterNode (.partialDecryption transportSession transportSubSession
        response.request_id response.shadow_point response.decrypt_shadow)],
     .ok ())

/-- Modelled from the spec: master `on_job_response` (§4.1): only while
`WaitingForPartialResults` (else `InvalidStateForRequest`); the sender must be in
the current compute quorum, bear the current round's `request_id`, and have no
prior response (else `InvalidNodeForRequest`); the response is recorded, and when
`t+1` responses are present the combiner produces the result and the sub-session
moves to `Finished`. -/
def ConsensusSession.on_job_response (cs : ConsensusSession) (sender : NodeId)
    (response : PartialDecryptionResponse) : ConsensusSession × Except Error Unit :=
  if cs.state ≠ .WaitingForPartialResults then
    (cs, .error .InvalidStateForRequest)
  else if response.request_id ≠ cs.jobRequestId then
    (cs, .error .InvalidNodeForRequest)
  else if sender ∉ cs.jobRequests then
    (cs, .error .InvalidNodeForRequest)
  else if sender ∈ cs.jobResponses.map Prod.fst then
    (cs, .error .InvalidNodeForRequest)
  else
    let responses := cs.jobResponses ++ [(sender, response)]
    if cs.threshold + 1 ≤ responses.length then
      match cs.computationJob with
      | none => (cs, .error .InvalidStateForRequest)
      | some job =>
        ({ cs with state := .Finished, jobResponses := responses,
                   consensusResult := some (computeJobResult job responses) }, .ok ())
    else
      ({ cs with jobResponses := responses }, .ok ())

/-- Modelled from the spec: slave `on_session_completed(sender)` (§4.1): the
master informs slaves they may release their state; the sub-session moves to
`Finished`.  Unexpected sender → `InvalidMessage`; wrong state →
`InvalidStateForRequest`. -/
def ConsensusSession.on_session_completed (cs : ConsensusSession) (sender : NodeId) :
    ConsensusSession × Except Error Unit :=
  if sender ≠ cs.masterNode then
    (cs, .error .InvalidMessage)
  else if cs.state ≠ .ConsensusEstablished then
    (cs, .error .InvalidStateForRequest)
  else
    ({ cs with state := .Finished }, .ok ())

/-- Modelled from the spec: `on_node_error(node)` (§4.1): moves `node` from
whichever set it is in into `rejected`; the returned flag is `true` iff the state
is `WaitingForPartialResults` and the node was a compute participant (the master
must re-disseminate); when too few survivors remain to form a quorum the
sub-session moves to `Failed` with `ConsensusUnreachable`. -/
def ConsensusSession.on_node_error (cs : ConsensusSession) (node : NodeId) :
    ConsensusSession × Except Error Bool :=
  let wasTracked := node ∈ cs.requested ∨ node ∈ cs.confirmed
  let cs1 := { cs with
    requested := cs.requested.filter (· ≠ node)
    confirmed := cs.confirmed.filter (· ≠ node)
    rejected := if wasTracked then cs.rejected ++ [node] else cs.rejected }
  match cs.state with
  | .WaitingForPartialResults =>
    let isParticipant := node ∈ cs.jobRequests ∨ node ∈ cs.jobResponses.map Prod.fst
    if isParticipant then
      if cs1.confirmed.length < cs.threshold + 1 then
        ({ cs1 with state := .Failed }, .error .ConsensusUnreachable)
      else
        ({ cs1 with state := .EstablishingConsensus }, .ok true)
    else
      (cs1, .ok false)
  | .EstablishingConsensus =>
    if cs1.requested.length + cs1.confirmed.length < cs.threshold + 1 then
      ({ cs1 with state := .Failed }, .error .ConsensusUnreachable)
    else
      (cs1, .ok false)
  | .ConsensusEstablished =>
    if cs1.confirmed.length < cs.threshold + 1 then
      ({ cs1 with state := .Failed }, .error .ConsensusUnreachable)
    else
      (cs1, .ok false)
  | _ => (cs, .ok false)

/-- Modelled from the spec: `on_session_timeout` (§4.1): treated as a simultaneous
`on_node_error` for all still-requested peers; terminal with
`ConsensusUnreachable` unless the sub-session is already finished or failed.
(The repository's own test `decryption_fails_on_session_timeout` pins the
behaviour on a freshly created session: the result becomes
`Err(ConsensusUnreachable)`.) -/
def ConsensusSession.on_session_timeout (cs : ConsensusSession) :
    ConsensusSession × Except Error Bool :=
  match cs.state with
  | .Finished => (cs, .ok false)
  | .Failed => (cs, .ok false)
  | _ =>
    ({ cs with state := .Failed, rejected := cs.rejected ++ cs.requested, requested := [] },
     .error .ConsensusUnreachable)

/-- Modelled from the spec: `ConsensusSession::result()` — the combined result
once `Finished`, otherwise `InvalidStateForRequest`. -/
def ConsensusSession.result (cs : ConsensusSession) : Except Error EncryptedDocumentKeyShadow :=
  if cs.state = .Finished then
    match cs.consensusResult with
    | some r => .ok r
    | none => .error .InvalidStateForRequest
  else
    .error .InvalidStateForRequest

/-- Immutable session data (`SessionCore`); the cluster handle and condvar are
represented through the emitted `SessionEvent`s. -/
structure SessionCore where
  meta : SessionMeta
  access_key : Secret
  key_share : DocumentKeyShare
  deriving DecidableEq

/-- Mutable session data (`SessionData`), normally behind the session mutex. -/
structure SessionData where
  consensus_session : ConsensusSession
  is_shadow_decryption : Option Bool
  result : Option DecResult
  deriving DecidableEq

/-- Whole-session state as produced by `SessionImpl::new`. -/
structure SessionState where
  core : SessionCore
  data : SessionData
  deriving DecidableEq

/-- Creation parameters (`SessionParams`); the ACL storage is modelled as the set
of nodes whose local ACL check passes for this requester and document. -/
structure SessionParams where
  meta : SessionMeta
  access_key : Secret
  key_share : DocumentKeyShare
  acl : List NodeId
  deriving DecidableEq

/-- Modelled from the spec: `generation_session::check_cluster_nodes` (not under
`src/`): `self_node_id ∈ key_share.id_numbers` → else `InvalidNodesConfiguration`
(§4.2 precondition 2). -/
def check_cluster_nodes (self_node_id : NodeId) (nodes : List NodeId) : Except Error Unit :=
  if self_node_id ∈ nodes then .ok () else .error .InvalidNodesConfiguration

/-- Modelled from the spec: `generation_session::check_threshold` (not under
`src/`): `participants.len() ≥ threshold + 1` → else `InvalidThreshold` (§4.2
precondition 3). -/
def check_threshold (threshold : Nat) (nodes : List NodeId) : Except Error Unit :=
  if threshold + 1 ≤ nodes.length then .ok () else .error .InvalidThreshold

namespace SessionImpl

/-- `SessionImpl::new` (source lines 124-171): release semantics (the two
`debug_assert_eq!` lines compile to nothing).  Checks, in order: both
`common_point` and `encrypted_point` present (else `NotStartedSessionId`), then
`check_cluster_nodes` on the key share's participant ids, then `check_threshold`;
otherwise constructs the session with a fresh consensus sub-session (on the
master when a requester signature is given, on a slave otherwise), no
`is_shadow_decryption` flag and no result. -/
def new (params : SessionParams) (requester_signature : Option Nat) :
    Except Error SessionState :=
  if params.key_share.common_point.isNone || params.key_share.encrypted_point.isNone then
    .error .NotStartedSessionId
  else
    let nodes := params.key_share.id_numbers.map Prod.fst
    match check_cluster_nodes params.meta.self_node_id nodes with
    | .error e => .error e
    | .ok () =>
      match check_threshold params.key_share.threshold nodes with
      | .error e => .error e
      | .ok () =>
        .ok
          { core :=
              { meta := params.meta
                access_key := params.access_key
                key_share := params.key_share }
            data :=
              { consensus_session :=
                  match requester_signature with
                  | some sig => ConsensusSession.new_on_master params.meta params.acl
                      params.meta.id params.access_key sig
                  | none => ConsensusSession.new_on_slave params.meta params.acl
                      params.meta.id params.access_key
                is_shadow_decryption := none
                result := none } }

/-- `SessionCore::disseminate_jobs` (source lines 384-388): read the requester,
build the master `DecryptionJob`, and run the consensus sub-session's
dissemination through the decryption job transport. -/
def core_disseminate_jobs (core : SessionCore) (cs : ConsensusSession)
    (is_shadow_decryption : Bool) : ConsensusSession × List SessionEvent × Except Error Unit :=
  match cs.requester with
  | .error e => (cs, [], .error e)
  | .ok requester =>
    let job : DecryptionJob :=
      { self_node_id := core.meta.self_node_id
        access_key := core.access_key
        requester := requester
        key_share := core.key_share
        is_shadow_decryption := some is_shadow_decryption }
    cs.disseminate_jobs job core.meta.id core.access_key

end SessionImpl

/-- `SessionImpl::initialize` (source lines 198-212): store the
`is_shadow_decryption` flag first, then initialize the consensus sub-session with
the full participant set; when consensus is immediately established (degenerate
case) disseminate jobs synchronously, record `result = Ok(..)` and notify all
waiters.  Any error from the consensus calls propagates via `?` after the flag
has already been overwritten.  (Named `initializeSession` because `initialize`
is reserved in Lean.) -/
def SessionImpl.initializeSession (core : SessionCore) (d : SessionData) (is_shadow_decryption : Bool) :
    SessionData × List SessionEvent × Except Error Unit :=
  let d := { d with is_shadow_decryption := some is_shadow_decryption }
  let (cs, evs, r) :=
    d.consensus_session.initializeConsensus (core.key_share.id_numbers.map Prod.fst)
  let d := { d with consensus_session := cs }
  match r with
  | .error e => (d, evs, .error e)
  | .ok () =>
    if cs.state = .ConsensusEstablished then
      let (cs2, evs2, r2) := SessionImpl.core_disseminate_jobs core cs is_shadow_decryption
      let d := { d with consensus_session := cs2 }
      match r2 with
      | .error e => (d, evs ++ evs2, .error e)
      | .ok () =>
        match cs2.result with
        | .error e => (d, evs ++ evs2, .error e)
        | .ok res =>
          ({ d with result := some (.ok res) },
           evs ++ evs2 ++ [.setResult (.ok res), .notifyAll], .ok ())
    else
      (d, evs, .ok ())

namespace SessionImpl

/-- Inbound `DecryptionConsensusMessage` (`DecryptionMessage` wrapper). -/
structure DecryptionConsensusMsg where
  session : SessionId
  sub_session : Secret
  message : ConsensusMessage
  deriving DecidableEq

/-- Inbound `RequestPartialDecryption` message. -/
structure RequestPartialDecryptionMsg where
  session : SessionId
  sub_session : Secret
  request_id : Secret
  is_shadow_decryption : Bool
  nodes : List NodeId
  deriving DecidableEq

/-- Inbound `PartialDecryption` message. -/
structure PartialDecryptionMsg where
  session : SessionId
  sub_session : Secret
  request_id : Secret
  shadow_point : Public
  decrypt_shadow : Option Nat
  deriving DecidableEq

/-- Inbound `DecryptionSessionError` message. -/
structure DecryptionSessionErrorMsg where
  session : SessionId
  sub_session : Secret
  error : String
  deriving DecidableEq

/-- Inbound `DecryptionSessionCompleted` message. -/
structure DecryptionSessionCompletedMsg where
  session : SessionId
  sub_session : Secret
  deriving DecidableEq

/-- `SessionImpl::on_consensus_message` (source lines 231-247).  `debug` tells
whether `debug_assert!` is compiled in; `none` models a panic (a failed assertion,
or the `expect` on `is_shadow_decryption`).  In release builds the two id
assertions vanish and the message is processed regardless of its `session` /
`sub_session` fields. -/
def on_consensus_message (debug : Bool) (core : SessionCore) (d : SessionData)
    (sender : NodeId) (message : DecryptionConsensusMsg) :
    Option (SessionData × List SessionEvent × Except Error Unit) :=
  if debug ∧ ¬(core.meta.id = message.session) then none
  else if debug ∧ ¬(core.access_key = message.sub_session) then none
  else
    let is_establishing_consensus := d.consensus_session.state = .EstablishingConsensus
    let (cs, evs, r) := d.consensus_session.on_consensus_message sender message.message
    let d := { d with consensus_session := cs }
    match r with
    | .error e => some (d, evs, .error e)
    | .ok () =>
      let is_consensus_established := cs.state = .ConsensusEstablished
      if core.meta.self_node_id ≠ core.meta.master_node_id ∨ ¬is_establishing_consensus
          ∨ ¬is_consensus_established then
        some (d, evs, .ok ())
      else
        match d.is_shadow_decryption with
        | none => none
        | some isw =>
          let (cs2, evs2, r2) := core_disseminate_jobs core cs isw
          some ({ d with consensus_session := cs2 }, evs ++ evs2, r2)

/-- `SessionImpl::on_partial_decryption_requested` (source lines 250-265): after
the (debug-only) id and sender assertions, read the requester, build the slave
`DecryptionJob`, and forward the request to the consensus sub-session, which
validates it and replies through the decryption job transport. -/
def on_partial_decryption_requested (debug : Bool) (core : SessionCore) (d : SessionData)
    (sender : NodeId) (message : RequestPartialDecryptionMsg) :
    Option (SessionData × List SessionEvent × Except Error Unit) :=
  if debug ∧ ¬(core.meta.id = message.session) then none
  else if debug ∧ ¬(core.access_key = message.sub_session) then none
  else if debug ∧ ¬(sender ≠ core.meta.self_node_id) then none
  else
    match d.consensus_session.requester with
    | .error e => some (d, [], .error e)
    | .ok requester =>
      let decryption_job : DecryptionJob :=
        { self_node_id := core.meta.self_node_id
          access_key := core.access_key
          requester := requester
          key_share := core.key_share
          is_shadow_decryption := none }
      let request : PartialDecryptionRequest :=
        { id := message.request_id
          is_shadow_decryption := message.is_shadow_decryption
          other_nodes_ids := message.nodes }
      let (cs, evs, r) := d.consensus_session.on_job_request sender request decryption_job
        core.meta.id core.access_key
      some ({ d with consensus_session := cs }, evs, r)

/-- `SessionImpl::on_partial_decryption` (source lines 268-293): after the
(debug-only) assertions, feed the response to the consensus sub-session; if that
does not reach `Finished`, return `Ok(())`; otherwise broadcast
`DecryptionSessionCompleted{session, sub_session}` first, then set
`result = Ok(combined)` and wake all waiters. -/
def on_partial_decryption (debug : Bool) (core : SessionCore) (d : SessionData)
    (sender : NodeId) (message : PartialDecryptionMsg) :
    Option (SessionData × List SessionEvent × Except Error Unit) :=
  if debug ∧ ¬(core.meta.id = message.session) then none
  else if debug ∧ ¬(core.access_key = message.sub_session) then none
  else if debug ∧ ¬(sender ≠ core.meta.self_node_id) then none
  else
    let response : PartialDecryptionResponse :=
      { request_id := message.request_id
        shadow_point := message.shadow_point
        decrypt_shadow := message.decrypt_shadow }
    match d.consensus_session.on_job_response sender response with
    | (cs, .error e) => some ({ d with consensus_session := cs }, [], .error e)
    | (cs, .ok ()) =>
      let d := { d with consensus_session := cs }
      if cs.state ≠ .Finished then
        some (d, [], .ok ())
      else
        let completed := DecryptionMessageModel.sessionCompleted core.meta.id core.access_key
        match cs.result with
        | .error e => some (d, [.broadcast completed], .error e)
        | .ok res =>
          some ({ d with result := some (.ok res) },
                [.broadcast completed, .setResult (.ok res), .notifyAll], .ok ())

/-- `SessionImpl::on_session_completed` (source lines 296-302): after the
(debug-only) assertions, forward to the consensus sub-session. -/
def on_session_completed (debug : Bool) (core : SessionCore) (d : SessionData)
    (sender : NodeId) (message : DecryptionSessionCompletedMsg) :
    Option (SessionData × List SessionEvent × Except Error Unit) :=
  if debug ∧ ¬(core.meta.id = message.session) then none
  else if debug ∧ ¬(core.access_key = message.sub_session) then none
  else if debug ∧ ¬(sender ≠ core.meta.self_node_id) then none
  else
    let (cs, r) := d.consensus_session.on_session_completed sender
    some ({ d with consensus_session := cs }, [], r)

/-- `SessionImpl::process_node_error` (source lines 310-341): run
`on_node_error` / `on_session_timeout` on the consensus sub-session.
`Ok(false)`: nothing further.  `Ok(true)`: re-disseminate jobs (the `expect` on
`is_shadow_decryption` panics — `none` — if the flag was never set); a
dissemination error is recorded as `result = Err(..)` and all waiters are woken.
`Err(..)`: recorded as `result = Err(..)`, all waiters woken.  The `error` string
argument is used only by `warn!` logging in the source and logging is not
modelled. -/
def process_node_error (core : SessionCore) (d : SessionData) (node : Option NodeId)
    (error : String) : Option (SessionData × List SessionEvent × Except Error Unit) :=
  let (cs1, r) :=
    match node with
    | some n => d.consensus_session.on_node_error n
    | none => d.consensus_session.on_session_timeout
  let d := { d with consensus_session := cs1 }
  match r with
  | .ok false => some (d, [], .ok ())
  | .ok true =>
    match d.is_shadow_decryption with
    | none => none
    | some isw =>
      let (cs2, evs2, r2) := core_disseminate_jobs core cs1 isw
      let d := { d with consensus_session := cs2 }
      match r2 with
      | .ok () => some (d, evs2, .ok ())
      | .error err =>
        some ({ d with result := some (.error err) },
              evs2 ++ [.setResult (.error err), .notifyAll], .error err)
  | .error err =>
    some ({ d with result := some (.error err) },
          [.setResult (.error err), .notifyAll], .error err)

/-- `SessionImpl::on_session_error` (source lines 305-307): delegate to
`process_node_error` with the sender; the message's `session`, `sub_session` and
`error` fields are not verified (the error string reaches only `warn!`). -/
def on_session_error (core : SessionCore) (d : SessionData) (sender : NodeId)
    (message : DecryptionSessionErrorMsg) :
    Option (SessionData × List SessionEvent × Except Error Unit) :=
  process_node_error core d (some sender) message.error

/-- `ClusterSession::is_finished` (source lines 345-349). -/
def is_finished (d : SessionData) : Bool :=
  d.consensus_session.state = .Failed || d.consensus_session.state = .Finished

/-- `ClusterSession::on_node_timeout` (source lines 351-354): the returned error
is ignored, only the state (and emitted events) matter. -/
def on_node_timeout (core : SessionCore) (d : SessionData) (node : NodeId) :
    Option (SessionData × List SessionEvent) :=
  match process_node_error core d (some node) "NodeDisconnected" with
  | none => none
  | some (d1, evs, _) => some (d1, evs)

/-- `ClusterSession::on_session_timeout` (source lines 356-359): the returned
error is ignored, only the state (and emitted events) matter. -/
def on_session_timeout (core : SessionCore) (d : SessionData) :
    Option (SessionData × List SessionEvent) :=
  match process_node_error core d none "NodeDisconnected" with
  | none => none
  | some (d1, evs, _) => some (d1, evs)

/-- The dereference at the end of `Session::wait` (source lines 369-371):
`data.result.as_ref().expect(..).clone()`.  `.error ()` models the panic of the
`expect` — the thread never returns a value in that case.  There is no recheck
loop: the value read is returned as-is. -/
def waitDeref (result : Option DecResult) : Except Unit DecResult :=
  match result with
  | some r => .ok r
  | none => .error ()

/-- `Session::wait` (source lines 363-372).  `entry` is `data.result` at the
moment the lock is acquired; when it is `none` the thread blocks on the
`completed` condvar and `wake` is `data.result` at the moment the wait returns
(the lock is re-acquired atomically, and is held from the check — or the wakeup —
until the return, so the field cannot change in between). -/
def wait (entry wake : Option DecResult) : Except Unit DecResult :=
  if entry.isSome then waitDeref entry else waitDeref wake

/-- The stored `result` at the moment `wait` dereferences it: the entry value when
no blocking was needed, the wakeup value otherwise. -/
def resultAtReturn (entry wake : Option DecResult) : Option DecResult :=
  if entry.isSome then entry else wake

end SessionImpl

/-- The value of `SessionData::result` after executing a list of emitted events
starting from `r0`: each `setResult` assignment overwrites it, other events leave
it unchanged. -/
def resultAfterEvents (r0 : Option DecResult) (evs : List SessionEvent) : Option DecResult :=
  evs.foldl (fun acc e => match e with | .setResult r => some r | _ => acc) r0

/-- Discipline of the completion signal: scanning an event list starting with
stored result `r0`, every `notifyAll` must occur at a point where the stored
result is already `some`.  This is the spec's "the completion signal is raised
only after `result` is set". -/
def notifiesOnlyWhenSet (r0 : Option DecResult) : List SessionEvent → Bool
  | [] => true
  | .setResult r :: rest => notifiesOnlyWhenSet (some r) rest
  | .notifyAll :: rest => r0.isSome && notifiesOnlyWhenSet r0 rest
  | _ :: rest => notifiesOnlyWhenSet r0 rest

/-- True for transport events that broadcast a message to all peers. -/
def SessionEvent.isBroadcast : SessionEvent → Bool
  | .broadcast _ => true
  | _ => false

/-- The events emitted by a possibly-panicking entry point (`none` = the process
aborts, so nothing further is observed). -/
def emittedEvents (o : Option (SessionData × List SessionEvent × Except Error Unit)) :
    List SessionEvent :=
  match o with
  | none => []
  | some t => t.2.1

/-- Concrete single-node master core used by witnesses (threshold 0). -/
def egCore1 : SessionCore :=
  { meta := { id := 1, self_node_id := 10, master_node_id := 10, threshold := 0 }
    access_key := 2
    key_share :=
      { author := 0, threshold := 0, id_numbers := [(10, 3)]
        secret_share := 5, common_point := some 6, encrypted_point := some 7 } }

/-- Concrete session data whose consensus sub-session is already establishing
consensus (as after a first `initialize` call on a multi-node master). -/
def egDataEstablishing : SessionData :=
  { consensus_session :=
      { state := .EstablishingConsensus, threshold := 0, selfNode := 10
        masterNode := 10, transportSession := 1, transportSubSession := 2
        acl := [10], requesterPublic := some 8, requested := [], confirmed := [10]
        rejected := [], jobRequestId := 0, jobRequests := [], jobResponses := []
        computationJob := none, consensusResult := none }
    is_shadow_decryption := none
    result := none }

/-- Concrete parameters matching `egCore1` (single node 10, threshold 0). -/
def egParams1 : SessionParams :=
  { meta := egCore1.meta
    access_key := egCore1.access_key
    key_share := egCore1.key_share
    acl := [10] }

/-- The session state `SessionImpl.new egParams1 (some 8)` constructs. -/
def egSt1 : SessionState :=
  { core := egCore1
    data :=
      { consensus_session := ConsensusSession.new_on_master egCore1.meta [10] 1 2 8
        is_shadow_decryption := none
        result := none } }

/-- The session data after a session-timeout on the fresh `egSt1` session. -/
def egFailedData : SessionData :=
  { egSt1.data with
      consensus_session := { egSt1.data.consensus_session with state := .Failed }
      result := some (.error .ConsensusUnreachable) }

/-- Master decryption job for the concrete two-of-three witness run. -/
def egJob : DecryptionJob :=
  { self_node_id := 10, access_key := 2, requester := 8
    key_share := egCore1.key_share, is_shadow_decryption := some false }

/-- Concrete master consensus sub-session waiting for the final partial result:
threshold 1, quorum {10, 11}, own response already recorded. -/
def egCSWaiting : ConsensusSession :=
  { state := .WaitingForPartialResults, threshold := 1, selfNode := 10, masterNode := 10
    transportSession := 1, transportSubSession := 2, acl := [10, 11]
    requesterPublic := some 8, requested := [], confirmed := [10, 11], rejected := []
    jobRequestId := 42, jobRequests := [10, 11]
    jobResponses := [(10, { request_id := 42, shadow_point := 31, decrypt_shadow := none })]
    computationJob := some egJob, consensusResult := none }

/-- Session data wrapping `egCSWaiting`. -/
def egDataWaiting : SessionData :=
  { consensus_session := egCSWaiting, is_shadow_decryption := some false, result := none }

/-- The quorum-completing partial-decryption message from node 11. -/
def egMsgPD : SessionImpl.PartialDecryptionMsg :=
  { session := 1, sub_session := 2, request_id := 42, shadow_point := 55, decrypt_shadow := none }

/-- The combined plain-mode result of the witness run. -/
def egCombined : EncryptedDocumentKeyShadow :=
  { decrypted_secret := 179, common_point := none, decrypt_shadows := none }

/-- The consensus sub-session after the completing response from node 11. -/
def egCSFinished : ConsensusSession :=
  { egCSWaiting with
      state := .Finished
      jobResponses := egCSWaiting.jobResponses
        ++ [(11, { request_id := 42, shadow_point := 55, decrypt_shadow := none })]
      consensusResult := some egCombined }

/-- Concrete slave core (node 11, master 10, session id 1, access key 2). -/
def egCoreSlave : SessionCore :=
  { meta := { id := 1, self_node_id := 11, master_node_id := 10, threshold := 1 }
    access_key := 2
    key_share :=
      { author := 0, threshold := 1, id_numbers := [(10, 3), (11, 4)]
        secret_share := 5, common_point := some 6, encrypted_point := some 7 } }

/-- Concrete slave session data with consensus already established (as after the
phase-A exchange), ready to process phase-B and completion messages. -/
def egDataSlaveEstablished : SessionData :=
  { consensus_session :=
      { state := .ConsensusEstablished, threshold := 1, selfNode := 11, masterNode := 10
        transportSession := 1, transportSubSession := 2, acl := [10, 11]
        requesterPublic := some 8, requested := [], confirmed := [], rejected := []
        jobRequestId := 0, jobRequests := [], jobResponses := []
        computationJob := none, consensusResult := none }
    is_shadow_decryption := none
    result := none }

section Claims

/-- C8: the ordering on `DecryptionSessionId` is exactly the lexicographic order
on the pair (session id, access key): `cmp` equals the `Ordering.then`
lexicographic combination, it compares access keys only when the session ids are
equal and session ids alone otherwise, and `partial_cmp` always returns `Some` of
the same ordering. -/
theorem DecryptionSessionId_cmp_is_lexicographic (a b : DecryptionSessionId) :
    a.cmp b = specLexicographicOrder a b
    ∧ a.partial_cmp b = some (a.cmp b)
    ∧ (a.id = b.id → a.cmp b = compare a.access_key b.access_key)
    ∧ (a.id ≠ b.id → a.cmp b = compare a.id b.id) := by
  refine ⟨?_, rfl, ?_, ?_⟩
  · unfold DecryptionSessionId.cmp specLexicographicOrder Ordering.then
    rcases h : compare a.id b.id <;> simp
  · intro h
    unfold DecryptionSessionId.cmp
    rw [h]
    simp [compare_eq_iff_eq.mpr rfl]
  · intro h
    unfold DecryptionSessionId.cmp
    rcases hc : compare a.id b.id <;> simp
    exact absurd (compare_eq_iff_eq.mp hc) h

/-- Witness for C8 at a concrete pair of session ids. -/
theorem DecryptionSessionId_cmp_is_lexicographic_witness :
    (DecryptionSessionId.mk 5 7).cmp (DecryptionSessionId.mk 5 9)
        = compare (7 : Nat) 9
    ∧ (DecryptionSessionId.mk 5 7).cmp (DecryptionSessionId.mk 6 1)
        = compare (5 : Nat) 6 := by
  constructor
  · exact (DecryptionSessionId_cmp_is_lexicographic ⟨5, 7⟩ ⟨5, 9⟩).2.2.1 rfl
  · exact (DecryptionSessionId_cmp_is_lexicographic ⟨5, 7⟩ ⟨6, 1⟩).2.2.2 (by decide)

/-- C3: `SessionImpl::new` checks its preconditions eagerly and in order:
`NotStartedSessionId` when `common_point` or `encrypted_point` is missing
(regardless of the other conditions); otherwise `InvalidNodesConfiguration` when
`self_node_id` is not a key of `id_numbers`; otherwise `InvalidThreshold` when
the participant count is below `threshold + 1`; otherwise the session is
constructed. -/
theorem new_checks_preconditions_in_order (params : SessionParams) (sig : Option Nat) :
    ((params.key_share.common_point = none ∨ params.key_share.encrypted_point = none) →
        SessionImpl.new params sig = .error .NotStartedSessionId)
    ∧ (params.key_share.common_point.isSome → params.key_share.encrypted_point.isSome →
        params.meta.self_node_id ∉ params.key_share.id_numbers.map Prod.fst →
        SessionImpl.new params sig = .error .InvalidNodesConfiguration)
    ∧ (params.key_share.common_point.isSome → params.key_share.encrypted_point.isSome →
        params.meta.self_node_id ∈ params.key_share.id_numbers.map Prod.fst →
        (params.key_share.id_numbers.map Prod.fst).length < params.key_share.threshold + 1 →
        SessionImpl.new params sig = .error .InvalidThreshold)
    ∧ (params.key_share.common_point.isSome → params.key_share.encrypted_point.isSome →
        params.meta.self_node_id ∈ params.key_share.id_numbers.map Prod.fst →
        params.key_share.threshold + 1 ≤ (params.key_share.id_numbers.map Prod.fst).length →
        ∃ st, SessionImpl.new params sig = .ok st) := by
  unfold SessionImpl.new check_cluster_nodes check_threshold
  refine ⟨?_, ?_, ?_, ?_⟩
  · intro h1
    rcases h1 with h1 | h1 <;> simp [h1]
  · intro h1 h2 h3
    rw [Option.isSome_iff_ne_none] at h1 h2
    simp [Option.isNone_iff_eq_none, h1, h2, h3]
  · intro h1 h2 h3 h4
    rw [Option.isSome_iff_ne_none] at h1 h2
    have h4' : params.key_share.id_numbers.length < params.key_share.threshold + 1 := by
      simpa using h4
    simp [Option.isNone_iff_eq_none, h1, h2, h3, Nat.not_le.mpr h4']
  · intro h1 h2 h3 h4
    rw [Option.isSome_iff_ne_none] at h1 h2
    have h4' : params.key_share.threshold + 1 ≤ params.key_share.id_numbers.length := by
      simpa using h4
    simp [Option.isNone_iff_eq_none, h1, h2, h3, h4']

/-- Witness for C3: a two-node share with threshold 0 constructs; dropping the
self node yields `InvalidNodesConfiguration`. -/
theorem new_checks_preconditions_in_order_witness :
    (∃ st, SessionImpl.new
        { meta := { id := 1, self_node_id := 10, master_node_id := 10, threshold := 0 }
          access_key := 2
          key_share :=
            { author := 0, threshold := 0, id_numbers := [(10, 3), (11, 4)]
              secret_share := 5, common_point := some 6, encrypted_point := some 7 }
          acl := [10, 11] } (some 8) = .ok st)
    ∧ SessionImpl.new
        { meta := { id := 1, self_node_id := 12, master_node_id := 10, threshold := 0 }
          access_key := 2
          key_share :=
            { author := 0, threshold := 0, id_numbers := [(10, 3), (11, 4)]
              secret_share := 5, common_point := some 6, encrypted_point := some 7 }
          acl := [10, 11] } (some 8) = .error .InvalidNodesConfiguration := by
  constructor
  · exact (new_checks_preconditions_in_order _ _).2.2.2 (by decide) (by decide)
      (by decide) (by decide)
  · exact (new_checks_preconditions_in_order _ _).2.1 (by decide) (by decide) (by decide)

/-- C9: `initialize` overwrites `is_shadow_decryption` with its argument before
invoking the consensus sub-session's initialize, so the returned state carries
`Some(argument)` on every path; in particular a double call fails with
`InvalidStateForRequest` while the only change to the session data is the
overwritten flag. -/
theorem initialize_not_atomic_on_error (core : SessionCore) (d : SessionData) (v : Bool) :
    (SessionImpl.initializeSession core d v).1.is_shadow_decryption = some v
    ∧ (d.consensus_session.state ≠ .WaitingForInitialization →
        SessionImpl.initializeSession core d v =
          ({ d with is_shadow_decryption := some v }, [], .error .InvalidStateForRequest)) := by
  constructor
  · unfold SessionImpl.initializeSession
    dsimp only
    repeat' split
    all_goals rfl
  · intro h
    unfold SessionImpl.initializeSession ConsensusSession.initializeConsensus
    simp [h]

/-- Witness for C9: on a session whose consensus sub-session is already
establishing consensus (a double call), `initialize` errors yet the flag is now
`some true`. -/
theorem initialize_not_atomic_on_error_witness :
    (SessionImpl.initializeSession egCore1 egDataEstablishing true).2.2
        = .error .InvalidStateForRequest
    ∧ (SessionImpl.initializeSession egCore1 egDataEstablishing true).1.is_shadow_decryption
        = some true := by
  constructor
  · have h := (initialize_not_atomic_on_error egCore1 egDataEstablishing true).2 (by decide)
    rw [h]
  · exact (initialize_not_atomic_on_error egCore1 egDataEstablishing true).1

/-- C10: handling an inbound `DecryptionSessionError` message depends only on the
sender: for any two such messages delivered by the same sender in the same
session state, `on_session_error` performs the same state transition, emits the
same events and produces the same result — the carried error string and the
unverified `session` / `sub_session` fields never influence the outcome (the
string reaches only `warn!` logging in the source). -/
theorem on_session_error_depends_only_on_sender (core : SessionCore) (d : SessionData)
    (sender : NodeId) (m1 m2 : SessionImpl.DecryptionSessionErrorMsg) :
    SessionImpl.on_session_error core d sender m1
      = SessionImpl.on_session_error core d sender m2 := rfl

/-- C2: `wait` returns a value exactly when the stored result at the moment of
the dereference is `Some`, the returned value equals that stored result, and a
result already present at entry is returned as-is. -/
theorem wait_returns_iff_result_set (entry wake : Option DecResult) :
    ((∃ v, SessionImpl.wait entry wake = .ok v)
        ↔ (SessionImpl.resultAtReturn entry wake).isSome = true)
    ∧ (∀ v, SessionImpl.wait entry wake = .ok v
        → SessionImpl.resultAtReturn entry wake = some v)
    ∧ (∀ v, entry = some v → SessionImpl.wait entry wake = .ok v) := by
  unfold SessionImpl.wait SessionImpl.resultAtReturn SessionImpl.waitDeref
  rcases entry with _ | e <;> rcases wake with _ | w <;> simp

/-- Witness for C2 at a concrete stored result. -/
theorem wait_returns_iff_result_set_witness :
    SessionImpl.wait (some (.ok ⟨1, none, none⟩)) none = .ok (.ok ⟨1, none, none⟩) :=
  (wait_returns_iff_result_set _ _).2.2 _ rfl

/-- A session constructed by `SessionImpl.new` starts with its consensus
sub-session in `WaitingForInitialization`. -/
theorem new_ok_consensus_state (params : SessionParams) (sig : Option Nat)
    (st : SessionState) (hnew : SessionImpl.new params sig = .ok st) :
    st.data.consensus_session.state = .WaitingForInitialization := by
  unfold SessionImpl.new at hnew
  split at hnew
  · exact Except.noConfusion hnew
  · dsimp only at hnew
    rcases hc : check_cluster_nodes params.meta.self_node_id
        (params.key_share.id_numbers.map Prod.fst) with e | u
    · rw [hc] at hnew
      exact Except.noConfusion hnew
    · rw [hc] at hnew
      rcases ht : check_threshold params.key_share.threshold
          (params.key_share.id_numbers.map Prod.fst) with e | u
      · rw [ht] at hnew
        exact Except.noConfusion hnew
      · rw [ht] at hnew
        have h := (Except.ok.inj hnew).symm
        subst h
        rcases sig with _ | s <;> rfl

/-- C6: on a freshly constructed session (no message exchanged yet),
`on_session_timeout` drives the session to a terminal state with
`result = Err(ConsensusUnreachable)`, the waiters are woken (the `notifyAll`
event follows the `setResult`), `is_finished` holds, and `wait` — whether it had
already blocked or is called afterwards — returns exactly that error. -/
theorem session_timeout_before_progress (params : SessionParams) (sig : Option Nat)
    (st : SessionState) (hnew : SessionImpl.new params sig = .ok st) :
    ∃ d1, SessionImpl.on_session_timeout st.core st.data =
        some (d1, [.setResult (.error .ConsensusUnreachable), .notifyAll])
      ∧ d1.result = some (.error .ConsensusUnreachable)
      ∧ SessionImpl.is_finished d1 = true
      ∧ (∀ wake, SessionImpl.wait d1.result wake = .ok (.error .ConsensusUnreachable)) := by
  have hst := new_ok_consensus_state params sig st hnew
  refine ⟨{ st.data with
      consensus_session := { st.data.consensus_session with
        state := .Failed
        rejected := st.data.consensus_session.rejected ++ st.data.consensus_session.requested
        requested := [] }
      result := some (.error .ConsensusUnreachable) }, ?_, rfl, rfl, fun wake => rfl⟩
  unfold SessionImpl.on_session_timeout SessionImpl.process_node_error
  simp [ConsensusSession.on_session_timeout, hst]

/-- Witness for C6 on the concrete single-node master session. -/
theorem session_timeout_before_progress_witness :
    ∃ d1, SessionImpl.on_session_timeout egSt1.core egSt1.data =
        some (d1, [.setResult (.error .ConsensusUnreachable), .notifyAll])
      ∧ d1.result = some (.error .ConsensusUnreachable)
      ∧ SessionImpl.is_finished d1 = true
      ∧ (∀ wake, SessionImpl.wait d1.result wake = .ok (.error .ConsensusUnreachable)) :=
  session_timeout_before_progress egParams1 (some 8) egSt1 (by rfl)

/-- An accepted job response leaves the consensus sub-session `Finished` exactly
when the recorded responses have reached the quorum size `t+1`. -/
theorem on_job_response_finished_iff (cs : ConsensusSession) (sender : NodeId)
    (resp : PartialDecryptionResponse) (cs1 : ConsensusSession)
    (h : cs.on_job_response sender resp = (cs1, .ok ())) :
    cs1.state = .Finished ↔ cs1.threshold + 1 ≤ cs1.jobResponses.length := by
  unfold ConsensusSession.on_job_response at h
  dsimp only at h
  repeat' split at h
  all_goals simp at h
  all_goals subst h
  all_goals simp_all

/-- C1: on a session whose consensus sub-session accepts a partial-decryption
response, the sub-session finishes exactly when the quorum of `t+1` responses is
complete; in that case `on_partial_decryption` first broadcasts
`DecryptionSessionCompleted{session, sub_session}`, then sets
`result = Ok(combined)` and wakes all waiters (in that event order); a response
that does not complete the quorum yields `Ok(())` with no events and an
unchanged result. -/
theorem on_partial_decryption_completion_order (core : SessionCore) (d : SessionData)
    (sender : NodeId) (msg : SessionImpl.PartialDecryptionMsg) (cs1 : ConsensusSession)
    (hstep : d.consensus_session.on_job_response sender
        { request_id := msg.request_id, shadow_point := msg.shadow_point
          decrypt_shadow := msg.decrypt_shadow } = (cs1, .ok ())) :
    (cs1.state = .Finished ↔ cs1.threshold + 1 ≤ cs1.jobResponses.length)
    ∧ (∀ r, cs1.state = .Finished → cs1.result = .ok r →
        SessionImpl.on_partial_decryption false core d sender msg =
          some ({ d with consensus_session := cs1, result := some (.ok r) },
            [.broadcast (.sessionCompleted core.meta.id core.access_key),
             .setResult (.ok r), .notifyAll], .ok ()))
    ∧ (cs1.state ≠ .Finished →
        SessionImpl.on_partial_decryption false core d sender msg =
          some ({ d with consensus_session := cs1 }, [], .ok ())
        ∧ ({ d with consensus_session := cs1 } : SessionData).result = d.result) := by
  refine ⟨on_job_response_finished_iff _ _ _ _ hstep, ?_, ?_⟩
  · intro r hfin hres
    unfold SessionImpl.on_partial_decryption
    dsimp only
    rw [hstep]
    simp [hfin, hres]
  · intro hfin
    unfold SessionImpl.on_partial_decryption
    dsimp only
    rw [hstep]
    simp [hfin]

/-- Witness for C1: the completing response from node 11 in the concrete
two-node quorum; the broadcast precedes the result assignment and wakeup. -/
theorem on_partial_decryption_completion_order_witness :
    SessionImpl.on_partial_decryption false egCore1 egDataWaiting 11 egMsgPD =
      some ({ egDataWaiting with consensus_session := egCSFinished
                                 result := some (.ok egCombined) },
        [.broadcast (.sessionCompleted egCore1.meta.id egCore1.access_key),
         .setResult (.ok egCombined), .notifyAll], .ok ()) :=
  (on_partial_decryption_completion_order egCore1 egDataWaiting 11 egMsgPD egCSFinished
    (by decide)).2.1 egCombined (by decide) (by decide)

/-- Every error path of `core_disseminate_jobs` emits no events. -/
theorem core_disseminate_jobs_error_events (core : SessionCore) (cs : ConsensusSession)
    (isw : Bool) (cs2 : ConsensusSession) (evs2 : List SessionEvent) (e : Error)
    (h : SessionImpl.core_disseminate_jobs core cs isw = (cs2, evs2, .error e)) :
    evs2 = [] := by
  unfold SessionImpl.core_disseminate_jobs ConsensusSession.disseminate_jobs at h
  dsimp only at h
  repeat' split at h
  all_goals simp at h
  all_goals simp_all

/-- C4 counterexample: a fatal error on the concrete master session
(`on_session_timeout` on the fresh session) records `result = Err(..)` and wakes
the waiters, but its event list contains no broadcast at all — in particular no
`DecryptionSessionError` broadcast is sent to the slaves. -/
theorem process_node_error_broadcasts_nothing :
    SessionImpl.process_node_error egCore1 egSt1.data none "NodeDisconnected" =
      some (egFailedData,
        [.setResult (.error .ConsensusUnreachable), .notifyAll], .error .ConsensusUnreachable)
    ∧ egFailedData.result = some (.error .ConsensusUnreachable)
    ∧ List.filter SessionEvent.isBroadcast
        [SessionEvent.setResult (.error .ConsensusUnreachable), SessionEvent.notifyAll] = [] :=
  ⟨rfl, rfl, rfl⟩

/-- C4 (amended): every fatal error in `process_node_error` — a consensus
`on_node_error` / `on_session_timeout` error, or a restart dissemination error —
records `result = Err(kind)` and wakes all waiters, and the emitted events are
exactly the result assignment followed by the wakeup: no `DecryptionSessionError`
(or any other) message is broadcast. -/
theorem process_node_error_records_error_and_wakes (core : SessionCore) (d : SessionData)
    (node : Option NodeId) (s : String) (d1 : SessionData) (evs : List SessionEvent)
    (e : Error)
    (h : SessionImpl.process_node_error core d node s = some (d1, evs, .error e)) :
    d1.result = some (.error e)
    ∧ evs = [.setResult (.error e), .notifyAll]
    ∧ evs.filter SessionEvent.isBroadcast = [] := by
  unfold SessionImpl.process_node_error at h
  rcases node with _ | n <;> dsimp only at h
  · rcases hcall : d.consensus_session.on_session_timeout with ⟨cs1, r⟩
    rw [hcall] at h
    dsimp only at h
    rcases r with err | b
    · simp only [Option.some.injEq, Prod.mk.injEq] at h
      obtain ⟨hd1, hevs, he⟩ := h
      obtain rfl := (Except.error.inj he)
      subst hd1
      subst hevs
      exact ⟨rfl, rfl, rfl⟩
    · rcases b with _ | _
      · simp at h
      · dsimp only at h
        rcases hflag : d.is_shadow_decryption with _ | isw <;> rw [hflag] at h <;>
          dsimp only at h
        · exact Option.noConfusion h
        · rcases hd : SessionImpl.core_disseminate_jobs core cs1 isw with ⟨cs2, evs2, r2⟩
          rw [hd] at h
          dsimp only at h
          rcases r2 with err2 | u
          · simp only [Option.some.injEq, Prod.mk.injEq] at h
            obtain ⟨hd1, hevs, he⟩ := h
            obtain rfl := (Except.error.inj he)
            have hnil := core_disseminate_jobs_error_events core cs1 isw cs2 evs2 err2 hd
            subst hnil
            subst hd1
            subst hevs
            exact ⟨rfl, rfl, rfl⟩
          · simp at h
  · rcases hcall : d.consensus_session.on_node_error n with ⟨cs1, r⟩
    rw [hcall] at h
    dsimp only at h
    rcases r with err | b
    · simp only [Option.some.injEq, Prod.mk.injEq] at h
      obtain ⟨hd1, hevs, he⟩ := h
      obtain rfl := (Except.error.inj he)
      subst hd1
      subst hevs
      exact ⟨rfl, rfl, rfl⟩
    · rcases b with _ | _
      · simp at h
      · dsimp only at h
        rcases hflag : d.is_shadow_decryption with _ | isw <;> rw [hflag] at h <;>
          dsimp only at h
        · exact Option.noConfusion h
        · rcases hd : SessionImpl.core_disseminate_jobs core cs1 isw with ⟨cs2, evs2, r2⟩
          rw [hd] at h
          dsimp only at h
          rcases r2 with err2 | u
          · simp only [Option.some.injEq, Prod.mk.injEq] at h
            obtain ⟨hd1, hevs, he⟩ := h
            obtain rfl := (Except.error.inj he)
            have hnil := core_disseminate_jobs_error_events core cs1 isw cs2 evs2 err2 hd
            subst hnil
            subst hd1
            subst hevs
            exact ⟨rfl, rfl, rfl⟩
          · simp at h

/-- Witness for the amended C4 on the concrete fresh master session. -/
theorem process_node_error_records_error_and_wakes_witness :
    egFailedData.result = some (.error .ConsensusUnreachable)
    ∧ [SessionEvent.setResult (.error .ConsensusUnreachable), SessionEvent.notifyAll]
        = [SessionEvent.setResult (.error .ConsensusUnreachable), SessionEvent.notifyAll]
    ∧ List.filter SessionEvent.isBroadcast
        [SessionEvent.setResult (.error .ConsensusUnreachable), SessionEvent.notifyAll] = [] :=
  process_node_error_records_error_and_wakes egCore1 egSt1.data none "NodeDisconnected"
    egFailedData [SessionEvent.setResult (.error .ConsensusUnreachable), SessionEvent.notifyAll]
    .ConsensusUnreachable (by rfl)

/-- C5 counterexample: in a release build (`debug = false`),
`on_session_completed` delivered with a `session` and `sub_session` that match
neither the session id nor the access key is processed normally and returns
`Ok(())` — not `Err(InvalidMessage)`: the `debug_assert!` id checks compile to
nothing, so release builds perform no id verification at all. -/
theorem handlers_release_mode_no_id_check :
    SessionImpl.on_session_completed false egCoreSlave egDataSlaveEstablished 10
        { session := 999, sub_session := 777 } =
      some ({ egDataSlaveEstablished with
                consensus_session :=
                  { egDataSlaveEstablished.consensus_session with state := .Finished } },
            [], .ok ())
    ∧ (999 : Nat) ≠ egCoreSlave.meta.id
    ∧ (777 : Nat) ≠ egCoreSlave.access_key := by
  refine ⟨rfl, by decide, by decide⟩

/-- C5 (amended): each of the four inbound handlers checks
`session == self.meta.id` and `sub_session == self.access_key` with
`debug_assert!` only: in debug builds a mismatch is an assertion failure (panic);
in release builds the ids are not verified at all — the handler's outcome is
identical for any values of the message's `session` and `sub_session` fields, so
a mismatched message is processed as if the ids matched. -/
theorem handlers_assert_ids_debug_only :
    (∀ core d sender (msg : SessionImpl.DecryptionConsensusMsg),
        msg.session ≠ core.meta.id ∨ msg.sub_session ≠ core.access_key →
        SessionImpl.on_consensus_message true core d sender msg = none)
    ∧ (∀ core d sender (msg : SessionImpl.DecryptionConsensusMsg) s k,
        SessionImpl.on_consensus_message false core d sender msg
          = SessionImpl.on_consensus_message false core d sender
              { msg with session := s, sub_session := k })
    ∧ (∀ core d sender (msg : SessionImpl.RequestPartialDecryptionMsg),
        msg.session ≠ core.meta.id ∨ msg.sub_session ≠ core.access_key →
        SessionImpl.on_partial_decryption_requested true core d sender msg = none)
    ∧ (∀ core d sender (msg : SessionImpl.RequestPartialDecryptionMsg) s k,
        SessionImpl.on_partial_decryption_requested false core d sender msg
          = SessionImpl.on_partial_decryption_requested false core d sender
              { msg with session := s, sub_session := k })
    ∧ (∀ core d sender (msg : SessionImpl.PartialDecryptionMsg),
        msg.session ≠ core.meta.id ∨ msg.sub_session ≠ core.access_key →
        SessionImpl.on_partial_decryption true core d sender msg = none)
    ∧ (∀ core d sender (msg : SessionImpl.PartialDecryptionMsg) s k,
        SessionImpl.on_partial_decryption false core d sender msg
          = SessionImpl.on_partial_decryption false core d sender
              { msg with session := s, sub_session := k })
    ∧ (∀ core d sender (msg : SessionImpl.DecryptionSessionCompletedMsg),
        msg.session ≠ core.meta.id ∨ msg.sub_session ≠ core.access_key →
        SessionImpl.on_session_completed true core d sender msg = none)
    ∧ (∀ core d sender (msg : SessionImpl.DecryptionSessionCompletedMsg) s k,
        SessionImpl.on_session_completed false core d sender msg
          = SessionImpl.on_session_completed false core d sender
              { msg with session := s, sub_session := k }) := by
  refine ⟨?_, ?_, ?_, ?_, ?_, ?_, ?_, ?_⟩
  · intro core d sender msg hmis
    unfold SessionImpl.on_consensus_message
    rcases hmis with hmis | hmis
    · by_cases h1 : core.meta.id = msg.session
      · exact absurd h1.symm hmis
      · simp [h1]
    · by_cases h1 : core.meta.id = msg.session
      · have h2 : ¬(core.access_key = msg.sub_session) := fun hh => hmis hh.symm
        simp [h1, h2]
      · simp [h1]
  · intro core d sender msg s k
    rfl
  · intro core d sender msg hmis
    unfold SessionImpl.on_partial_decryption_requested
    rcases hmis with hmis | hmis
    · by_cases h1 : core.meta.id = msg.session
      · exact absurd h1.symm hmis
      · simp [h1]
    · by_cases h1 : core.meta.id = msg.session
      · have h2 : ¬(core.access_key = msg.sub_session) := fun hh => hmis hh.symm
        simp [h1, h2]
      · simp [h1]
  · intro core d sender msg s k
    rfl
  · intro core d sender msg hmis
    unfold SessionImpl.on_partial_decryption
    rcases hmis with hmis | hmis
    · by_cases h1 : core.meta.id = msg.session
      · exact absurd h1.symm hmis
      · simp [h1]
    · by_cases h1 : core.meta.id = msg.session
      · have h2 : ¬(core.access_key = msg.sub_session) := fun hh => hmis hh.symm
        simp [h1, h2]
      · simp [h1]
  · intro core d sender msg s k
    rfl
  · intro core d sender msg hmis
    unfold SessionImpl.on_session_completed
    rcases hmis with hmis | hmis
    · by_cases h1 : core.meta.id = msg.session
      · exact absurd h1.symm hmis
      · simp [h1]
    · by_cases h1 : core.meta.id = msg.session
      · have h2 : ¬(core.access_key = msg.sub_session) := fun hh => hmis hh.symm
        simp [h1, h2]
      · simp [h1]
  · intro core d sender msg s k
    rfl

/-- Witness for the amended C5: a debug-build assertion failure on a concrete
mismatched `DecryptionSessionCompleted`. -/
theorem handlers_assert_ids_debug_only_witness :
    SessionImpl.on_session_completed true egCoreSlave egDataSlaveEstablished 10
        { session := 999, sub_session := 2 } = none :=
  handlers_assert_ids_debug_only.2.2.2.2.2.2.1 egCoreSlave egDataSlaveEstablished 10
    { session := 999, sub_session := 2 } (Or.inl (by decide))

/-- Scanning an appended event list splits into the two parts, threading the
stored result through the first part. -/
theorem notifiesOnlyWhenSet_append (r0 : Option DecResult) (l1 l2 : List SessionEvent) :
    notifiesOnlyWhenSet r0 (l1 ++ l2)
      = (notifiesOnlyWhenSet r0 l1 && notifiesOnlyWhenSet (resultAfterEvents r0 l1) l2) := by
  induction l1 generalizing r0 with
  | nil => simp [notifiesOnlyWhenSet, resultAfterEvents]
  | cons e rest ih =>
    cases e <;>
      simp [notifiesOnlyWhenSet, resultAfterEvents, List.foldl_cons, ih, Bool.and_assoc]

/-- An event list without any `notifyAll` trivially satisfies the signal
discipline. -/
theorem notifiesOnlyWhenSet_of_no_notify (r0 : Option DecResult) (l : List SessionEvent)
    (h : SessionEvent.notifyAll ∉ l) : notifiesOnlyWhenSet r0 l = true := by
  induction l generalizing r0 with
  | nil => rfl
  | cons e rest ih =>
    have hrest : SessionEvent.notifyAll ∉ rest := fun hm => h (List.mem_cons_of_mem _ hm)
    cases e with
    | send dest m => exact ih r0 hrest
    | broadcast m => exact ih r0 hrest
    | setResult r => exact ih (some r) hrest
    | notifyAll => exact absurd (List.mem_cons_self _ _) h

/-- A notify-free prefix followed by a result assignment and the wakeup satisfies
the signal discipline from any starting result. -/
theorem notifiesOnlyWhenSet_set_then_notify (r0 : Option DecResult)
    (l : List SessionEvent) (r : DecResult) (h : SessionEvent.notifyAll ∉ l) :
    notifiesOnlyWhenSet r0 (l ++ [.setResult r, .notifyAll]) = true := by
  rw [notifiesOnlyWhenSet_append, notifiesOnlyWhenSet_of_no_notify r0 l h]
  simp [notifiesOnlyWhenSet]

/-- The consensus sub-session's master initialize emits transport sends only. -/
theorem consensus_initialize_no_notify (cs : ConsensusSession) (nodes : List NodeId) :
    SessionEvent.notifyAll ∉ (cs.initializeConsensus nodes).2.1 := by
  unfold ConsensusSession.initializeConsensus
  dsimp only
  split_ifs <;> simp [List.mem_map]

/-- The consensus sub-session's message handler emits transport sends only. -/
theorem consensus_on_consensus_message_no_notify (cs : ConsensusSession) (sender : NodeId)
    (m : ConsensusMessage) :
    SessionEvent.notifyAll ∉ (cs.on_consensus_message sender m).2.1 := by
  unfold ConsensusSession.on_consensus_message
  rcases m with sig | conf <;> dsimp only <;> split_ifs <;> simp

/-- The consensus sub-session's job handler emits transport sends only. -/
theorem consensus_on_job_request_no_notify (cs : ConsensusSession) (sender : NodeId)
    (request : PartialDecryptionRequest) (job : DecryptionJob) (ts tk : Nat) :
    SessionEvent.notifyAll ∉ (cs.on_job_request sender request job ts tk).2.1 := by
  unfold ConsensusSession.on_job_request
  dsimp only
  split_ifs <;> simp

/-- Dissemination emits transport sends only. -/
theorem disseminate_jobs_no_notify (cs : ConsensusSession) (job : DecryptionJob)
    (ts tk : Nat) :
    SessionEvent.notifyAll ∉ (cs.disseminate_jobs job ts tk).2.1 := by
  unfold ConsensusSession.disseminate_jobs
  dsimp only
  split_ifs <;> simp [List.mem_map]

/-- The session-level dissemination wrapper emits transport sends only. -/
theorem core_disseminate_jobs_no_notify (core : SessionCore) (cs : ConsensusSession)
    (isw : Bool) :
    SessionEvent.notifyAll ∉ (SessionImpl.core_disseminate_jobs core cs isw).2.1 := by
  unfold SessionImpl.core_disseminate_jobs
  split
  · simp
  · exact disseminate_jobs_no_notify _ _ _ _

/-- C7 counterexample: `wait` does not recheck after a wakeup — a thread that
blocked (entry result `none`) and is woken while the result is still `none`
reaches the `expect` with `None` and panics instead of rechecking or returning. -/
theorem wait_no_recheck_on_spurious_wakeup :
    SessionImpl.wait none none = .error () := rfl

/-- C7 (amended): `wait` performs no recheck (a wakeup with `result` still `None`
would panic at the `expect`), but every entry point of the session raises the
completion signal only after `result` is set: each emitted event list satisfies
`notifiesOnlyWhenSet`, and along any such list the stored result at every
`notifyAll` is `Some`, so a thread woken at a notification point always finds a
value and the `expect` inside `wait` is unreachable. -/
theorem completion_signal_discipline :
    (∀ core d v, notifiesOnlyWhenSet d.result (SessionImpl.initializeSession core d v).2.1 = true)
    ∧ (∀ debug core d sender (msg : SessionImpl.DecryptionConsensusMsg),
        notifiesOnlyWhenSet d.result
          (emittedEvents (SessionImpl.on_consensus_message debug core d sender msg)) = true)
    ∧ (∀ debug core d sender (msg : SessionImpl.RequestPartialDecryptionMsg),
        notifiesOnlyWhenSet d.result
          (emittedEvents
            (SessionImpl.on_partial_decryption_requested debug core d sender msg)) = true)
    ∧ (∀ debug core d sender (msg : SessionImpl.PartialDecryptionMsg),
        notifiesOnlyWhenSet d.result
          (emittedEvents (SessionImpl.on_partial_decryption debug core d sender msg)) = true)
    ∧ (∀ debug core d sender (msg : SessionImpl.DecryptionSessionCompletedMsg),
        notifiesOnlyWhenSet d.result
          (emittedEvents (SessionImpl.on_session_completed debug core d sender msg)) = true)
    ∧ (∀ core d node s,
        notifiesOnlyWhenSet d.result
          (emittedEvents (SessionImpl.process_node_error core d node s)) = true)
    ∧ (∀ r0 evs, notifiesOnlyWhenSet r0 evs = true →
        ∀ k, evs.get? k = some .notifyAll →
          ∃ v, SessionImpl.waitDeref (resultAfterEvents r0 (evs.take k)) = .ok v) := by
  refine ⟨?_, ?_, ?_, ?_, ?_, ?_, ?_⟩
  · intro core d v
    unfold SessionImpl.initializeSession
    dsimp only
    rcases hinit : d.consensus_session.initializeConsensus (core.key_share.id_numbers.map Prod.fst)
      with ⟨cs, evs, r⟩
    dsimp only
    have hevs : SessionEvent.notifyAll ∉ evs := by
      have hmm := consensus_initialize_no_notify d.consensus_session
        (core.key_share.id_numbers.map Prod.fst)
      rw [hinit] at hmm
      exact hmm
    rcases r with e | u
    · exact notifiesOnlyWhenSet_of_no_notify _ _ hevs
    · by_cases hest : cs.state = ConsensusSessionState.ConsensusEstablished
      · rw [if_pos hest]
        rcases hd : SessionImpl.core_disseminate_jobs core cs v with ⟨cs2, evs2, r2⟩
        dsimp only
        have hevs2 : SessionEvent.notifyAll ∉ evs2 := by
          have hmm := core_disseminate_jobs_no_notify core cs v
          rw [hd] at hmm
          exact hmm
        have hcat : SessionEvent.notifyAll ∉ evs ++ evs2 := by
          simp [List.mem_append, hevs, hevs2]
        rcases r2 with e2 | u2
        · exact notifiesOnlyWhenSet_of_no_notify _ _ hcat
        · rcases hres : cs2.result with e3 | res <;> dsimp only
          · exact notifiesOnlyWhenSet_of_no_notify _ _ hcat
          · exact notifiesOnlyWhenSet_set_then_notify _ _ _ hcat
      · rw [if_neg hest]
        exact notifiesOnlyWhenSet_of_no_notify _ _ hevs
  · intro debug core d sender msg
    unfold SessionImpl.on_consensus_message
    by_cases h1 : debug = true ∧ ¬core.meta.id = msg.session
    · rw [if_pos h1]
      rfl
    · rw [if_neg h1]
      by_cases h2 : debug = true ∧ ¬core.access_key = msg.sub_session
      · rw [if_pos h2]
        rfl
      · rw [if_neg h2]
        dsimp only
        rcases hcm : d.consensus_session.on_consensus_message sender msg.message
          with ⟨cs, evs, r⟩
        dsimp only
        have hevs : SessionEvent.notifyAll ∉ evs := by
          have hmm := consensus_on_consensus_message_no_notify d.consensus_session sender
            msg.message
          rw [hcm] at hmm
          exact hmm
        rcases r with e | u
        · exact notifiesOnlyWhenSet_of_no_notify _ _ hevs
        · by_cases h3 : core.meta.self_node_id ≠ core.meta.master_node_id
              ∨ ¬d.consensus_session.state = ConsensusSessionState.EstablishingConsensus
              ∨ ¬cs.state = ConsensusSessionState.ConsensusEstablished
          · rw [if_pos h3]
            exact notifiesOnlyWhenSet_of_no_notify _ _ hevs
          · rw [if_neg h3]
            rcases hflag : d.is_shadow_decryption with _ | isw <;> dsimp only
            · rfl
            · rcases hd : SessionImpl.core_disseminate_jobs core cs isw with ⟨cs2, evs2, r2⟩
              dsimp only
              have hevs2 : SessionEvent.notifyAll ∉ evs2 := by
                have hmm := core_disseminate_jobs_no_notify core cs isw
                rw [hd] at hmm
                exact hmm
              exact notifiesOnlyWhenSet_of_no_notify _ _
                (by simp [emittedEvents, List.mem_append, hevs, hevs2])
  · intro debug core d sender msg
    unfold SessionImpl.on_partial_decryption_requested
    by_cases h1 : debug = true ∧ ¬core.meta.id = msg.session
    · rw [if_pos h1]
      rfl
    · rw [if_neg h1]
      by_cases h2 : debug = true ∧ ¬core.access_key = msg.sub_session
      · rw [if_pos h2]
        rfl
      · rw [if_neg h2]
        by_cases h3 : debug = true ∧ ¬sender ≠ core.meta.self_node_id
        · rw [if_pos h3]
          rfl
        · rw [if_neg h3]
          dsimp only
          rcases hreq : d.consensus_session.requester with e | req <;> dsimp only
          · rfl
          · rcases hjr : d.consensus_session.on_job_request sender
                { id := msg.request_id, is_shadow_decryption := msg.is_shadow_decryption
                  other_nodes_ids := msg.nodes }
                { self_node_id := core.meta.self_node_id, access_key := core.access_key
                  requester := req, key_share := core.key_share, is_shadow_decryption := none }
                core.meta.id core.access_key with ⟨cs, evs, r⟩
            dsimp only
            have hevs : SessionEvent.notifyAll ∉ evs := by
              have hmm := consensus_on_job_request_no_notify d.consensus_session sender
                { id := msg.request_id, is_shadow_decryption := msg.is_shadow_decryption
                  other_nodes_ids := msg.nodes }
                { self_node_id := core.meta.self_node_id, access_key := core.access_key
                  requester := req, key_share := core.key_share, is_shadow_decryption := none }
                core.meta.id core.access_key
              rw [hjr] at hmm
              exact hmm
            exact notifiesOnlyWhenSet_of_no_notify _ _ hevs
  · intro debug core d sender msg
    unfold SessionImpl.on_partial_decryption
    by_cases h1 : debug = true ∧ ¬core.meta.id = msg.session
    · rw [if_pos h1]
      rfl
    · rw [if_neg h1]
      by_cases h2 : debug = true ∧ ¬core.access_key = msg.sub_session
      · rw [if_pos h2]
        rfl
      · rw [if_neg h2]
        by_cases h3 : debug = true ∧ ¬sender ≠ core.meta.self_node_id
        · rw [if_pos h3]
          rfl
        · rw [if_neg h3]
          dsimp only
          rcases hjr : d.consensus_session.on_job_response sender
              { request_id := msg.request_id, shadow_point := msg.shadow_point
                decrypt_shadow := msg.decrypt_shadow } with ⟨cs, r⟩
          rcases r with e | u
          · rfl
          · dsimp only
            by_cases h4 : cs.state ≠ ConsensusSessionState.Finished
            · rw [if_pos h4]
              rfl
            · rw [if_neg h4]
              rcases hres : cs.result with e | res
              · simp [emittedEvents, notifiesOnlyWhenSet]
              · simp [emittedEvents, notifiesOnlyWhenSet]
  · intro debug core d sender msg
    unfold SessionImpl.on_session_completed
    by_cases h1 : debug = true ∧ ¬core.meta.id = msg.session
    · rw [if_pos h1]
      rfl
    · rw [if_neg h1]
      by_cases h2 : debug = true ∧ ¬core.access_key = msg.sub_session
      · rw [if_pos h2]
        rfl
      · rw [if_neg h2]
        by_cases h3 : debug = true ∧ ¬sender ≠ core.meta.self_node_id
        · rw [if_pos h3]
          rfl
        · rw [if_neg h3]
          rcases hsc : d.consensus_session.on_session_completed sender with ⟨cs, r⟩
          rfl
  · intro core d node s
    unfold emittedEvents SessionImpl.process_node_error
    rcases node with _ | n <;> dsimp only
    · rcases hcall : d.consensus_session.on_session_timeout with ⟨cs1, r⟩
      dsimp only
      rcases r with err | b
      · exact notifiesOnlyWhenSet_set_then_notify _ [] _ (by simp)
      · rcases b with _ | _
        · rfl
        · dsimp only
          rcases hflag : d.is_shadow_decryption with _ | isw <;> dsimp only
          · rfl
          · rcases hd : SessionImpl.core_disseminate_jobs core cs1 isw with ⟨cs2, evs2, r2⟩
            dsimp only
            have hevs2 : SessionEvent.notifyAll ∉ evs2 := by
              have hmm := core_disseminate_jobs_no_notify core cs1 isw
              rw [hd] at hmm
              exact hmm
            rcases r2 with err2 | u
            · exact notifiesOnlyWhenSet_set_then_notify _ _ _ hevs2
            · exact notifiesOnlyWhenSet_of_no_notify _ _ hevs2
    · rcases hcall : d.consensus_session.on_node_error n with ⟨cs1, r⟩
      dsimp only
      rcases r with err | b
      · exact notifiesOnlyWhenSet_set_then_notify _ [] _ (by simp)
      · rcases b with _ | _
        · rfl
        · dsimp only
          rcases hflag : d.is_shadow_decryption with _ | isw <;> dsimp only
          · rfl
          · rcases hd : SessionImpl.core_disseminate_jobs core cs1 isw with ⟨cs2, evs2, r2⟩
            dsimp only
            have hevs2 : SessionEvent.notifyAll ∉ evs2 := by
              have hmm := core_disseminate_jobs_no_notify core cs1 isw
              rw [hd] at hmm
              exact hmm
            rcases r2 with err2 | u
            · exact notifiesOnlyWhenSet_set_then_notify _ _ _ hevs2
            · exact notifiesOnlyWhenSet_of_no_notify _ _ hevs2
  · intro r0 evs h k hk
    induction evs generalizing r0 k with
    | nil => simp at hk
    | cons e rest ih =>
      rcases k with _ | k
      · simp at hk
        subst hk
        unfold notifiesOnlyWhenSet at h
        rcases hr : r0 with _ | v
        · rw [hr] at h
          simp at h
        · exact ⟨v, rfl⟩
      · have hk' : rest.get? k = some SessionEvent.notifyAll := hk
        have hstep : resultAfterEvents r0 ((e :: rest).take (k + 1))
            = resultAfterEvents
                (match e with | .setResult r => some r | _ => r0) (rest.take k) := by
          cases e <;> simp [resultAfterEvents, List.foldl_cons]
        rw [hstep]
        apply ih
        · cases e with
          | send dest m => exact h
          | broadcast m => exact h
          | setResult r => exact h
          | notifyAll =>
            unfold notifiesOnlyWhenSet at h
            exact (Bool.and_elim_right h)
        · exact hk'

/-- Witness for the amended C7: along the concrete event list
`[setResult, notifyAll]` the wakeup point sees a set result and the dereference
succeeds. -/
theorem completion_signal_discipline_witness :
    ∃ v, SessionImpl.waitDeref
        (resultAfterEvents none
          (([SessionEvent.setResult (.ok ⟨3, none, none⟩), SessionEvent.notifyAll]).take 1))
      = .ok v :=
  completion_signal_discipline.2.2.2.2.2.2 none
    [SessionEvent.setResult (.ok ⟨3, none, none⟩), SessionEvent.notifyAll]
    (by decide) 1 (by decide)

end Claims

end DecryptionSessionModel
